import Mathlib

/-!
Shallow embedding of the order-ledger, checkout, payment-capture and
status-broadcast subsystems of the AI-powered-barista backend
(`app/services/order_service.py`, `app/services/cart_service.py`,
`app/services/payment_service.py`, `app/services/order_tracking_service.py`,
data model in `app/models/order.py`).

Conventions of the embedding:
* Money (`Numeric(10,2)` columns and Python `Decimal` values) is embedded as
  `Int` in cents: on scale-2 decimals the operations the code performs
  (addition, multiplication by an integer quantity, exact comparison) agree
  exactly with integer arithmetic on cents, so no rounding behaviour is
  lost and every value stays computable.
* The SQLAlchemy session is embedded as an explicit record of table contents
  (`DB`); `db.commit()` boundaries that matter to the claims are made explicit
  as a list of commit effects.
* Exceptions become `Except` / explicit result types.
-/

deriving instance DecidableEq for Except

namespace Barista

/-- `OrderStatus` enum from `app/models/order.py`. -/
inductive OrderStatus
  | PENDING
  | ACCEPTED
  | IN_PREPARATION
  | READY_FOR_PICKUP
  | COMPLETED
  | CANCELED
deriving DecidableEq, Repr

/-- Row of `menu_items` (`app/models/menu.py`), restricted to the columns the
checkout path reads: `id`, `price`, `is_available`. -/
structure MenuItem where
  id : Int
  price : Int
  is_available : Bool
deriving DecidableEq, Repr

/-- Row of `cart_items` (`app/models/cart.py`). -/
structure CartItem where
  id : Int
  user_id : Int
  menu_item_id : Int
  quantity : Int
deriving DecidableEq, Repr

/-- Row of `orders` (`app/models/order.py`), restricted to the columns the
services read or write. -/
structure Order where
  id : Int
  user_id : Int
  status : OrderStatus
  total_amount : Int
  payment_provider : Option String
  payment_status : Option String
  paypal_order_id : Option String
  paypal_capture_id : Option String
deriving DecidableEq, Repr

/-- Row of `order_items` (`app/models/order.py`). -/
structure OrderItem where
  order_id : Int
  menu_item_id : Int
  quantity : Int
  unit_price : Int
  line_total : Int
deriving DecidableEq, Repr

/-- Row of `order_status_history` (`app/models/order.py`). -/
structure OrderStatusHistory where
  order_id : Int
  status : OrderStatus
  changed_by_user_id : Int
deriving DecidableEq, Repr

/-- The database state visible to the services under verification. -/
structure DB where
  menu_items : List MenuItem
  cart_items : List CartItem
  orders : List Order
  order_items : List OrderItem
  status_history : List OrderStatusHistory
deriving DecidableEq, Repr

/-- `db.query(MenuItem).filter(MenuItem.id == mid).first()`. -/
def find_menu_item (db : DB) (mid : Int) : Option MenuItem :=
  db.menu_items.find? (fun m => m.id == mid)

/-- `get_cart_items_for_user` from `app/services/cart_service.py`. -/
def get_cart_items_for_user (db : DB) (user_id : Int) : List CartItem :=
  db.cart_items.filter (fun c => c.user_id == user_id)

/-- `clear_cart` from `app/services/cart_service.py`: deletes all cart lines
for the user and commits. -/
def clear_cart (db : DB) (user_id : Int) : DB :=
  { db with cart_items := db.cart_items.filter (fun c => !(c.user_id == user_id)) }

/-- Errors raised by `app/services/order_service.py`. -/
inductive OrderError
  | emptyCart
  | itemUnavailable (menu_item_id : Int)
  | orderNotFound
deriving DecidableEq, Repr

/-- `_validate_and_build_order_items` from `app/services/order_service.py`:
walk the cart lines in order; the first line whose menu item is missing or
unavailable raises `ItemUnavailableError`; otherwise snapshot
`unit_price = Decimal(str(menu_item.price))`, `line_total = unit_price * quantity`
and accumulate the total.  (`order_id` is filled in later, as in the source
where the ORM object is created without it.) -/
def validate_and_build_order_items (db : DB) :
    List CartItem → Except OrderError (List OrderItem × Int)
  | [] => .ok ([], 0)
  | c :: rest =>
    match find_menu_item db c.menu_item_id with
    | none => .error (.itemUnavailable c.menu_item_id)
    | some m =>
      if m.is_available then
        let unit_price : Int := m.price
        let line_total : Int := unit_price * c.quantity
        match validate_and_build_order_items db rest with
        | .error e => .error e
        | .ok (items, total) =>
          .ok ({ order_id := 0, menu_item_id := m.id, quantity := c.quantity,
                 unit_price := unit_price, line_total := line_total } :: items,
               line_total + total)
      else .error (.itemUnavailable c.menu_item_id)

/-- A `db.commit()` boundary inside `create_order_from_cart`.  The source
commits twice: once for Order + OrderItems + initial history
(order_service.py line 107) and once inside `clear_cart`
(cart_service.py line 98). -/
inductive CommitEff
  | commitOrderCreation (o : Order) (items : List OrderItem) (h : OrderStatusHistory)
  | commitClearCart (user_id : Int)
deriving DecidableEq, Repr

/-- Apply one committed transaction to the database. -/
def applyCommit (db : DB) : CommitEff → DB
  | .commitOrderCreation o items h =>
      { db with
        orders := db.orders ++ [o],
        order_items := db.order_items ++ items,
        status_history := db.status_history ++ [h] }
  | .commitClearCart uid => clear_cart db uid

/-- `create_order_from_cart` from `app/services/order_service.py`, exposed at
the granularity of its `db.commit()` boundaries.  `new_order_id` stands for
the primary key assigned by `db.flush()`.  On success the function performs,
in order, the order-creation commit and then the cart-clearing commit; on
failure it raises before anything is added to the session, so the effect
list is empty. -/
def create_order_commits (db : DB) (user_id : Int) (new_order_id : Int) :
    Except OrderError (List CommitEff × Order) :=
  let cart_items := get_cart_items_for_user db user_id
  if cart_items.isEmpty then .error .emptyCart
  else
    match validate_and_build_order_items db cart_items with
    | .error e => .error e
    | .ok (items, total_amount) =>
      let order : Order :=
        { id := new_order_id, user_id := user_id, status := .PENDING,
          total_amount := total_amount, payment_provider := none,
          payment_status := none, paypal_order_id := none, paypal_capture_id := none }
      let items := items.map (fun i => { i with order_id := new_order_id })
      let hist : OrderStatusHistory :=
        { order_id := new_order_id, status := .PENDING, changed_by_user_id := user_id }
      .ok ([.commitOrderCreation order items hist, .commitClearCart user_id], order)

/-- `create_order_from_cart` end-to-end: resulting database state and result. -/
def create_order_from_cart (db : DB) (user_id : Int) (new_order_id : Int) :
    DB × Except OrderError Order :=
  match create_order_commits db user_id new_order_id with
  | .error e => (db, .error e)
  | .ok (effs, o) => (effs.foldl applyCommit db, .ok o)

/-- Update the row with primary key `oid` in place (`db.add(order)` on a loaded
row followed by `db.commit()`). -/
def DB.updateOrderRow (db : DB) (oid : Int) (f : Order → Order) : DB :=
  { db with orders := db.orders.map (fun x => if x.id == oid then f x else x) }

/-- Append one `order_status_history` row. -/
def DB.appendHistory (db : DB) (h : OrderStatusHistory) : DB :=
  { db with status_history := db.status_history ++ [h] }

/-- `get_order_by_id` from `app/services/order_service.py`. -/
def get_order_by_id (db : DB) (order_id : Int) : Except OrderError Order :=
  match db.orders.find? (fun o => o.id == order_id) with
  | none => .error .orderNotFound
  | some o => .ok o

/-- The database effect of `update_order_status`
(`app/services/order_service.py` lines 131-143): load the order, set its
status, append one history row carrying the new status and the acting user,
commit, and return the refreshed order.  The broadcast dispatch that follows
the commit is modelled separately (`dispatch_broadcast`). -/
def update_order_status_db (db : DB) (order_id : Int) (new_status : OrderStatus)
    (staff_user_id : Int) : Except OrderError (DB × Order) :=
  match get_order_by_id db order_id with
  | .error e => .error e
  | .ok o =>
    let o' : Order := { o with status := new_status }
    let db' : DB :=
      (db.updateOrderRow order_id (fun x => { x with status := new_status })).appendHistory
        { order_id := o.id, status := new_status, changed_by_user_id := staff_user_id }
    .ok (db', o')

/-! ## Status broadcast registry (`app/services/order_tracking_service.py`)

Channels (`WebSocket` objects) are embedded as natural-number identities;
whether `send_json` on a channel raises is supplied as an environment
predicate `sendOk`. -/

/-- `OrderWebSocketManager.active_connections : Dict[int, List[WebSocket]]`,
as an association list with at most one entry per key. -/
abbrev Registry := List (Int × List Nat)

/-- `self.active_connections[oid]` lookup (`oid in self.active_connections`
iff the result is `some`). -/
def Registry.lookup (r : Registry) (oid : Int) : Option (List Nat) :=
  (r.find? (fun e => e.1 == oid)).map (fun e => e.2)

/-- `connect` (after `websocket.accept()`): create the entry if absent, then
append the channel. -/
def connect (r : Registry) (oid : Int) (ws : Nat) : Registry :=
  match r.lookup oid with
  | none => r ++ [(oid, [ws])]
  | some _ => r.map (fun e => if e.1 == oid then (e.1, e.2 ++ [ws]) else e)

/-- Python `list.remove`: drop the first occurrence. -/
def removeFirst (ws : Nat) : List Nat → List Nat
  | [] => []
  | x :: xs => if x == ws then xs else x :: removeFirst ws xs

/-- `_remove_connection`: if the order id has an entry, remove the channel's
first occurrence when present, and delete the entry entirely once the list is
empty. -/
def remove_connection (r : Registry) (oid : Int) (ws : Nat) : Registry :=
  match r.lookup oid with
  | none => r
  | some conns =>
    let conns' := if conns.contains ws then removeFirst ws conns else conns
    if conns'.isEmpty then r.filter (fun e => !(e.1 == oid))
    else r.map (fun e => if e.1 == oid then (e.1, conns') else e)

/-- The payload of `OrderStatusEvent` (`app/schemas/order_tracking.py`) that
`broadcast_status` serializes and pushes. -/
structure OrderStatusEvent where
  orderId : Int
  status : OrderStatus
deriving DecidableEq, Repr

/-- `broadcast_status`: iterate the channels currently registered under
`event.orderId` (empty when absent), push the event to each, collect the
channels whose push raises, and remove those afterwards.  Returns the new
registry and the list of successful pushes. -/
def broadcast_status (sendOk : Nat → Bool) (r : Registry) (ev : OrderStatusEvent) :
    Registry × List (Nat × OrderStatusEvent) :=
  let connections := (r.lookup ev.orderId).getD []
  let sent := (connections.filter sendOk).map (fun ws => (ws, ev))
  let dead_connections := connections.filter (fun ws => !(sendOk ws))
  (dead_connections.foldl (fun acc ws => remove_connection acc ev.orderId ws) r, sent)

/-! ## Broadcast dispatch inside `update_order_status`
(order_service.py lines 151-158). -/

/-- Exception raised by awaiting the broadcast coroutine, if any. -/
inductive BroadcastExc
  | runtimeError
  | otherError
deriving DecidableEq, Repr

/-- The Python runtime context of the dispatch: whether
`anyio.from_thread.run` has a portal (caller runs in an anyio worker thread,
as FastAPI threadpool routes do), whether `asyncio.get_running_loop()` would
succeed, and what awaiting `broadcast_status` would raise. -/
structure RuntimeEnv where
  in_portal_worker_thread : Bool
  running_loop : Bool
  broadcast_exc : Option BroadcastExc
deriving DecidableEq, Repr

inductive DispatchOutcome
  | ranToCompletion
  | swallowed
  | scheduledOnLoop
deriving DecidableEq, Repr

/-- The dispatch block: `try: from_thread.run(broadcast_status, event)`.
A `RuntimeError` — raised by the portal machinery when there is no worker
portal, or re-raised from the coroutine — selects the `except RuntimeError`
branch, which calls `asyncio.get_running_loop()`; that call itself raises
`RuntimeError` when no loop is running, and an exception raised inside an
except-handler is not caught by the sibling `except Exception` clause, so it
propagates to the caller (`.error ()`).  Any other exception is swallowed by
`except Exception: pass`. -/
def dispatch_broadcast (env : RuntimeEnv) : Except Unit DispatchOutcome :=
  if env.in_portal_worker_thread then
    match env.broadcast_exc with
    | none => .ok .ranToCompletion
    | some .runtimeError =>
        if env.running_loop then .ok .scheduledOnLoop else .error ()
    | some .otherError => .ok .swallowed
  else
    if env.running_loop then .ok .scheduledOnLoop else .error ()

/-- Result of the full `update_order_status` including the post-commit
broadcast dispatch.  In `broadcastRuntimeError` the transition commit has
already happened (line 142 precedes the dispatch) but a `RuntimeError`
escapes to the caller instead of the updated order being returned. -/
inductive UpdateOutcome
  | ok (db : DB) (order : Order)
  | notFound
  | broadcastRuntimeError (db : DB) (order : Order)
deriving DecidableEq, Repr

/-- `update_order_status` from `app/services/order_service.py`: commit the
status change and history row, then dispatch the broadcast. -/
def update_order_status (env : RuntimeEnv) (db : DB) (order_id : Int)
    (new_status : OrderStatus) (staff_user_id : Int) : UpdateOutcome :=
  match update_order_status_db db order_id new_status staff_user_id with
  | .error _ => .notFound
  | .ok (db', o) =>
    match dispatch_broadcast env with
    | .ok _ => .ok db' o
    | .error () => .broadcastRuntimeError db' o

/-! ## Payment service (`app/services/payment_service.py`)

The HTTP interactions with PayPal are embedded as environment records
describing the processor's responses; the service logic over those responses
is translated from the source. -/

/-- Exceptions that can leave the payment-service functions. -/
inductive PayErr
  | orderPaymentError (msg : String)
  | payPalAPIError (msg : String) (retryable : Bool)
  | orderNotFoundError
  | jsonDecodeError
  | runtimeError
deriving DecidableEq, Repr

/-- One element of the `captures` array of a capture response.  `none` for a
field means the key is missing (or, for `amount_value`, that
`Decimal(capture["amount"]["value"])` raises), so reading it inside the
`try` block raises. -/
structure CaptureRec where
  id : Option String
  amount_value : Option Int
deriving DecidableEq, Repr

/-- One element of `purchase_units`.  `captures = none` means
`first_unit["payments"]` or `["captures"]` raises `KeyError`. -/
structure PurchaseUnit where
  custom_id : Option String
  captures : Option (List CaptureRec)
deriving DecidableEq, Repr

/-- The parsed JSON body of the capture response.  `status = none` means the
`status` key is absent (`data.get("status", "")` yields `""`);
`purchase_units = none` means `data["purchase_units"]` raises. -/
structure CaptureData where
  status : Option String
  purchase_units : Option (List PurchaseUnit)
deriving DecidableEq, Repr

/-- The processor's behaviour on one capture call: HTTP status of the OAuth
token call, HTTP status of the capture call, and the capture call's body
(`none` = `resp.json()` raises, i.e. the body is not JSON at all). -/
structure CaptureEnv where
  token_status : Nat
  http_status : Nat
  body : Option CaptureData
deriving DecidableEq, Repr

/-- Outcome of the `try` block of `capture_paypal_order` (lines 164-176):
either the needed fields parse, or the in-try custom-id cancellation fires
(its `PayPalAPIError` is itself caught by the `except Exception` handler), or
some lookup raises and control goes to the handler. -/
inductive ParseOutcome
  | parsed (transaction_id : String) (capture_amount : Int)
  | customIdMismatch
  | parseError
deriving DecidableEq, Repr

/-- The reads performed inside the `try` block, in source order:
`purchase_units[0]`, `.get("custom_id")` with Python truthiness (`None` and
`""` are falsy), `["payments"]["captures"][0]["id"]`,
`Decimal(...["amount"]["value"])`. -/
def parse_capture_payload (data : CaptureData) (oid : Int) : ParseOutcome :=
  match data.purchase_units with
  | none => .parseError
  | some [] => .parseError
  | some (first_unit :: _) =>
    if (match first_unit.custom_id with
        | some cid => !(cid == "") && !(cid == toString oid)
        | none => false) then .customIdMismatch
    else
      match first_unit.captures with
      | none => .parseError
      | some [] => .parseError
      | some (capture :: _) =>
        match capture.id, capture.amount_value with
        | some tid, some amt => .parsed tid amt
        | _, _ => .parseError

/-- `_cancel_order_due_to_payment`: persist `payment_provider = "PAYPAL"` and
the failure label, commit, drive the order to `CANCELED` via
`update_order_status` (acting user = order owner), then raise a non-retryable
`PayPalAPIError`.  The returned error is what actually propagates: if the
broadcast dispatch inside `update_order_status` raises `RuntimeError`, that
exception replaces the `PayPalAPIError`; if the order row vanished,
`OrderNotFoundError` propagates. -/
def cancel_order_due_to_payment (env : RuntimeEnv) (db : DB) (order : Order)
    (status_label : String) (message : String) : DB × PayErr :=
  let db1 := db.updateOrderRow order.id (fun x =>
    { x with payment_provider := some "PAYPAL", payment_status := some status_label })
  match update_order_status env db1 order.id .CANCELED order.user_id with
  | .ok db2 _ => (db2, .payPalAPIError message false)
  | .notFound => (db1, .orderNotFoundError)
  | .broadcastRuntimeError db2 _ => (db2, .runtimeError)

/-- `capture_paypal_order` from `app/services/payment_service.py`, returning
the database state after whatever commits happened together with the result
(`.ok (status, transaction_id)`) or the propagating exception. -/
def capture_paypal_order (benv : RuntimeEnv) (cenv : CaptureEnv) (db : DB)
    (order_id : Int) (paypal_order_id : String) (user_id : Int) :
    DB × Except PayErr (String × String) :=
  match get_order_by_id db order_id with
  | .error _ => (db, .error .orderNotFoundError)
  | .ok order =>
    if !(order.user_id == user_id) then
      (db, .error (.orderPaymentError "You do not have access to this order"))
    else if (match order.paypal_order_id with
             | some pid => !(pid == paypal_order_id)
             | none => false) then
      (db, .error (.orderPaymentError "PayPal order ID mismatch"))
    else if !(cenv.token_status == 200) then
      (db, .error (.payPalAPIError "Failed to obtain PayPal access token"
                     (decide (cenv.token_status >= 500))))
    else if cenv.http_status >= 500 then
      (db, .error (.payPalAPIError "TRANSIENT_ERROR" true))
    else
      match cenv.body with
      | none => (db, .error .jsonDecodeError)
      | some data =>
        if !(cenv.http_status == 200 || cenv.http_status == 201) then
          let r := cancel_order_due_to_payment benv db order "FAILED" "PayPal capture failed"
          (r.1, .error r.2)
        else
          let status := data.status.getD ""
          if !(status == "COMPLETED") then
            let label := if status == "" then "FAILED" else status
            let r := cancel_order_due_to_payment benv db order label "PayPal capture not completed"
            (r.1, .error r.2)
          else
            match parse_capture_payload data order.id with
            | .customIdMismatch =>
              let first := cancel_order_due_to_payment benv db order "FAILED" "Custom ID mismatch"
              let second := cancel_order_due_to_payment benv first.1 order "FAILED"
                "Unexpected PayPal capture response"
              (second.1, .error second.2)
            | .parseError =>
              let r := cancel_order_due_to_payment benv db order "FAILED"
                "Unexpected PayPal capture response"
              (r.1, .error r.2)
            | .parsed transaction_id capture_amount =>
              if !(capture_amount == order.total_amount) then
                let r := cancel_order_due_to_payment benv db order "AMOUNT_MISMATCH"
                  "Captured amount mismatch"
                (r.1, .error r.2)
              else
                let db1 := db.updateOrderRow order.id (fun x =>
                  { x with payment_provider := some "PAYPAL",
                           payment_status := some status,
                           paypal_order_id := some paypal_order_id,
                           paypal_capture_id := some transaction_id })
                match update_order_status benv db1 order_id .ACCEPTED order.user_id with
                | .ok db2 _ => (db2, .ok (status, transaction_id))
                | .notFound => (db1, .error .orderNotFoundError)
                | .broadcastRuntimeError db2 _ => (db2, .error .runtimeError)

/-- The processor's behaviour on one create call: OAuth token HTTP status,
create-order HTTP status, and the response body's `id` (`none` = the key is
missing or the body is not JSON, so reading it raises) and
`data.get("status", "CREATED")`. -/
structure CreateEnv where
  token_status : Nat
  create_status : Nat
  paypal_id : Option String
  reported_status : Option String
deriving DecidableEq, Repr

/-- `create_paypal_order` from `app/services/payment_service.py`. -/
def create_paypal_order (env : CreateEnv) (db : DB) (order_id : Int) (user_id : Int) :
    DB × Except PayErr (String × String) :=
  match get_order_by_id db order_id with
  | .error _ => (db, .error .orderNotFoundError)
  | .ok order =>
    if !(order.user_id == user_id) then
      (db, .error (.orderPaymentError "You do not have access to this order"))
    else if !(order.status == .PENDING) then
      (db, .error (.orderPaymentError "Order must be PENDING before initiating payment"))
    else if order.total_amount <= 0 then
      (db, .error (.orderPaymentError "Order total must be greater than zero"))
    else if !(env.token_status == 200) then
      (db, .error (.payPalAPIError "Failed to obtain PayPal access token"
                     (decide (env.token_status >= 500))))
    else if !(env.create_status == 200 || env.create_status == 201) then
      (db, .error (.payPalAPIError "PayPal create order failed"
                     (decide (env.create_status >= 500))))
    else
      match env.paypal_id with
      | none => (db, .error .jsonDecodeError)
      | some paypal_order_id =>
        let status := env.reported_status.getD "CREATED"
        let db1 := db.updateOrderRow order.id (fun x =>
          { x with payment_provider := some "PAYPAL",
                   payment_status := some status,
                   paypal_order_id := some paypal_order_id })
        (db1, .ok (paypal_order_id, status))

/-- One post-creation operation on the store, for the frame property: a
status transition, a payment-session creation, or a payment capture. -/
inductive SysOp
  | opUpdateStatus (env : RuntimeEnv) (order_id : Int) (st : OrderStatus) (staff : Int)
  | opPaypalCreate (env : CreateEnv) (order_id : Int) (user_id : Int)
  | opPaypalCapture (benv : RuntimeEnv) (cenv : CaptureEnv) (order_id : Int)
      (pid : String) (user_id : Int)

/-- The database state after running one operation (whether it returns
normally or raises, the committed state is what remains). -/
def applySysOp (db : DB) : SysOp → DB
  | .opUpdateStatus env oid st staff =>
    match update_order_status env db oid st staff with
    | .ok db' _ => db'
    | .notFound => db
    | .broadcastRuntimeError db' _ => db'
  | .opPaypalCreate env oid uid => (create_paypal_order env db oid uid).1
  | .opPaypalCapture benv cenv oid pid uid => (capture_paypal_order benv cenv db oid pid uid).1

/-- The creation-time attributes of an order row that the frame claim says
are never mutated: identity, owner, and `total_amount`. -/
def Order.frameView (o : Order) : Int × Int × Int := (o.id, o.user_id, o.total_amount)

/-! ## Concrete instances used by witnesses and counterexamples -/

/-- A 3.50 item (350 cents). -/
def menuLatte : MenuItem := { id := 101, price := 350, is_available := true }

/-- A 4.25 item (425 cents). -/
def menuMocha : MenuItem := { id := 102, price := 425, is_available := true }

/-- User 1 has a cart of {qty 2 @ 3.50, qty 1 @ 4.25}. -/
def dbCheckout : DB :=
  { menu_items := [menuLatte, menuMocha],
    cart_items := [{ id := 1, user_id := 1, menu_item_id := 101, quantity := 2 },
                   { id := 2, user_id := 1, menu_item_id := 102, quantity := 1 }],
    orders := [], order_items := [], status_history := [] }

/-- An order already in the terminal status `COMPLETED`. -/
def completedOrder : Order :=
  { id := 1, user_id := 7, status := .COMPLETED, total_amount := 500,
    payment_provider := none, payment_status := none,
    paypal_order_id := none, paypal_capture_id := none }

/-- Store holding only `completedOrder` and its two history rows. -/
def dbCompleted : DB :=
  { menu_items := [], cart_items := [], orders := [completedOrder], order_items := [],
    status_history := [{ order_id := 1, status := .PENDING, changed_by_user_id := 7 },
                       { order_id := 1, status := .COMPLETED, changed_by_user_id := 7 }] }

/-- A `PENDING` order of total 11.25 (1125 cents) awaiting payment, owned by user 7. -/
def pendingOrder : Order :=
  { id := 1, user_id := 7, status := .PENDING, total_amount := 1125,
    payment_provider := none, payment_status := none,
    paypal_order_id := none, paypal_capture_id := none }

/-- Store holding only `pendingOrder` and its creation history row. -/
def dbPending : DB :=
  { menu_items := [], cart_items := [], orders := [pendingOrder], order_items := [],
    status_history := [{ order_id := 1, status := .PENDING, changed_by_user_id := 7 }] }

/-- The deployment runtime context: FastAPI runs the sync route in an anyio
worker thread with a portal, and the broadcast coroutine raises nothing. -/
def quietEnv : RuntimeEnv :=
  { in_portal_worker_thread := true, running_loop := true, broadcast_exc := none }

/-- A plain synchronous context: no anyio portal and no running event loop. -/
def bareSyncEnv : RuntimeEnv :=
  { in_portal_worker_thread := false, running_loop := false, broadcast_exc := none }

/-- A capture response whose status is the lowercase string `"completed"`,
with matching custom id, a transaction id, and the exact order amount. -/
def lowercaseCompletedEnv : CaptureEnv :=
  { token_status := 200, http_status := 201,
    body := some
      { status := some "completed",
        purchase_units := some
          [{ custom_id := some "1",
             captures := some [{ id := some "TX1", amount_value := some 1125 }] }] } }

/-- The same capture response with the uppercase status the code requires. -/
def uppercaseCompletedEnv : CaptureEnv :=
  { token_status := 200, http_status := 201,
    body := some
      { status := some "COMPLETED",
        purchase_units := some
          [{ custom_id := some "1",
             captures := some [{ id := some "TX1", amount_value := some 1125 }] }] } }

/-- The order `create_order_from_cart` builds from `dbCheckout` (id 10). -/
def checkoutOrder : Order :=
  { id := 10, user_id := 1, status := .PENDING, total_amount := 1125,
    payment_provider := none, payment_status := none,
    paypal_order_id := none, paypal_capture_id := none }

/-- The order items snapshotted from `dbCheckout`'s cart. -/
def checkoutItems : List OrderItem :=
  [{ order_id := 10, menu_item_id := 101, quantity := 2, unit_price := 350, line_total := 700 },
   { order_id := 10, menu_item_id := 102, quantity := 1, unit_price := 425, line_total := 425 }]

/-- The initial `PENDING` history row of the checkout. -/
def checkoutHist : OrderStatusHistory :=
  { order_id := 10, status := .PENDING, changed_by_user_id := 1 }

/-- The two commits `create_order_from_cart` performs on `dbCheckout`. -/
def checkoutEffs : List CommitEff :=
  [.commitOrderCreation checkoutOrder checkoutItems checkoutHist, .commitClearCart 1]

/-- A store whose only menu item is unavailable but sits in user 1's cart. -/
def dbUnavailable : DB :=
  { menu_items := [{ id := 101, price := 350, is_available := false }],
    cart_items := [{ id := 1, user_id := 1, menu_item_id := 101, quantity := 1 }],
    orders := [], order_items := [], status_history := [] }

/-- A push channel is healthy unless it is channel 2. -/
def wsOk (ws : Nat) : Bool := !(ws == 2)

/-- A registry where order 1 has channels [2, 3, 2, 4] and order 5 has [9]. -/
def reg0 : Registry := [(1, [2, 3, 2, 4]), (5, [9])]

/-- Whether the broadcast dispatch completes without raising to the caller. -/
def RuntimeEnv.quiet (env : RuntimeEnv) : Bool := (dispatch_broadcast env).isOk

/-- The frame the post-creation operations must preserve: every order row
keeps its identity, owner and `total_amount`, and the `order_items`,
`menu_items` and `cart_items` tables are untouched. -/
def FramePreserved (db db' : DB) : Prop :=
  db'.orders.map Order.frameView = db.orders.map Order.frameView ∧
  db'.order_items = db.order_items ∧
  db'.menu_items = db.menu_items ∧
  db'.cart_items = db.cart_items

/-- The effect of `_remove_connection` on the channel list registered under
the affected order id, viewed through `Registry.lookup`. -/
def pruneOne (ws : Nat) : Option (List Nat) → Option (List Nat)
  | none => none
  | some conns =>
    let conns' := if conns.contains ws then removeFirst ws conns else conns
    if conns'.isEmpty then none else some conns'

/-- Well-formedness of the registry as a Python dict: at most one entry per
order id and — the claimed invariant — every entry holds a non-empty channel
list. -/
def RegistryWF (r : Registry) : Prop :=
  (r.map (fun e => e.1)).Nodup ∧ ∀ e ∈ r, e.2 ≠ []

/-! ## Theorems -/

/-- Everything `_validate_and_build_order_items` guarantees on success: the
returned total is the exact sum of `unit_price × quantity` over the built
items, every item's `line_total` is `unit_price × quantity`, the items
correspond line-by-line to the cart, and every line's menu item was found
and available with the snapshotted price. -/
theorem validate_spec (db : DB) (l : List CartItem) (items : List OrderItem) (total : Int)
    (h : validate_and_build_order_items db l = .ok (items, total)) :
    total = (items.map (fun i => i.unit_price * i.quantity)).sum ∧
    (∀ i ∈ items, i.line_total = i.unit_price * i.quantity) ∧
    items.map (fun i => (i.menu_item_id, i.quantity)) =
      l.map (fun c => (c.menu_item_id, c.quantity)) ∧
    (∀ i ∈ items, ∃ m, find_menu_item db i.menu_item_id = some m ∧
      i.unit_price = m.price ∧ m.is_available = true) := by
  induction l generalizing items total with
  | nil =>
    simp only [validate_and_build_order_items, Except.ok.injEq, Prod.mk.injEq] at h
    obtain ⟨hi, ht⟩ := h
    subst hi; subst ht
    simp
  | cons c rest ih =>
    simp only [validate_and_build_order_items] at h
    split at h
    · exact absurd h (by simp)
    next m hm =>
      split at h
      next hav =>
        split at h
        next e hr => exact absurd h (by simp)
        next items' total' hr =>
          simp only [Except.ok.injEq, Prod.mk.injEq] at h
          obtain ⟨hi, ht⟩ := h
          subst hi; subst ht
          obtain ⟨ihs, ihl, ihm, ihp⟩ := ih items' total' hr
          have hid : m.id = c.menu_item_id := by
            have hp := List.find?_some hm
            simpa using hp
          refine ⟨?_, ?_, ?_, ?_⟩
          · simp only [List.map_cons, List.sum_cons, ← ihs]
          · intro i hi
            rcases List.mem_cons.mp hi with rfl | hi
            · rfl
            · exact ihl i hi
          · simp only [List.map_cons, ihm, hid]
          · intro i hi
            rcases List.mem_cons.mp hi with rfl | hi
            · exact ⟨m, by simpa [hid] using hm, rfl, hav⟩
            · exact ihp i hi
      next hav => exact absurd h (by simp)

/-- `_validate_and_build_order_items` only ever raises `ItemUnavailableError`. -/
theorem validate_error_elim (db : DB) (l : List CartItem) (e : OrderError)
    (h : validate_and_build_order_items db l = .error e) :
    ∃ mid, e = .itemUnavailable mid := by
  induction l with
  | nil => simp [validate_and_build_order_items] at h
  | cons c rest ih =>
    simp only [validate_and_build_order_items] at h
    split at h
    · simp only [Except.error.injEq] at h
      exact ⟨c.menu_item_id, h.symm⟩
    next m hm =>
      split at h
      next hav =>
        split at h
        next e' hr =>
          simp only [Except.error.injEq] at h
          subst h
          exact ih hr
        next items' total' hr => exact absurd h (by simp)
      next hav =>
        simp only [Except.error.injEq] at h
        exact ⟨c.menu_item_id, h.symm⟩

/-- A cart line whose menu item is missing or unavailable makes
`_validate_and_build_order_items` raise `ItemUnavailableError`. -/
theorem validate_bad_line_error (db : DB) (l : List CartItem) (c : CartItem)
    (hc : c ∈ l)
    (hbad : ((find_menu_item db c.menu_item_id).all fun m => !m.is_available) = true) :
    ∃ mid, validate_and_build_order_items db l = .error (.itemUnavailable mid) := by
  induction l with
  | nil => cases hc
  | cons d rest ih =>
    rcases List.mem_cons.mp hc with rfl | hc
    · simp only [validate_and_build_order_items]
      cases hm : find_menu_item db c.menu_item_id with
      | none => exact ⟨c.menu_item_id, rfl⟩
      | some m =>
        have hav : m.is_available = false := by
          rw [hm] at hbad
          simpa using hbad
        exact ⟨c.menu_item_id, by simp [hav]⟩
    · simp only [validate_and_build_order_items]
      cases hm : find_menu_item db d.menu_item_id with
      | none => exact ⟨d.menu_item_id, rfl⟩
      | some m =>
        by_cases hav : m.is_available = true
        · obtain ⟨mid, hmid⟩ := ih hc
          exact ⟨mid, by simp [hav, hmid]⟩
        · exact ⟨d.menu_item_id, by simp [hav]⟩

/-- Claim C2: for every non-empty cart whose referenced menu items are all
available, `create_order_from_cart` produces an order whose `total_amount` is
the exact fixed-point sum of `unit_price × quantity` over all cart lines,
with each `OrderItem`'s `line_total` equal to its `unit_price × quantity`,
computed in exact (rational) arithmetic with no floating-point drift. -/
theorem create_order_total_exact (db : DB) (uid oid : Int)
    (effs : List CommitEff) (o : Order)
    (h : create_order_commits db uid oid = .ok (effs, o)) :
    ∃ items hrow,
      effs = [CommitEff.commitOrderCreation o items hrow, CommitEff.commitClearCart uid] ∧
      o.total_amount = (items.map (fun i => i.unit_price * i.quantity)).sum ∧
      (∀ i ∈ items, i.line_total = i.unit_price * i.quantity) ∧
      items.map (fun i => (i.menu_item_id, i.quantity)) =
        (get_cart_items_for_user db uid).map (fun c => (c.menu_item_id, c.quantity)) ∧
      (∀ i ∈ items, ∃ m, find_menu_item db i.menu_item_id = some m ∧
        i.unit_price = m.price ∧ m.is_available = true) := by
  simp only [create_order_commits] at h
  split at h
  · exact absurd h (by simp)
  · split at h
    next e hv => exact absurd h (by simp)
    next items0 total0 hv =>
      simp only [Except.ok.injEq, Prod.mk.injEq] at h
      obtain ⟨heffs, ho⟩ := h
      subst heffs; subst ho
      obtain ⟨hs, hl, hmm, hp⟩ := validate_spec db _ items0 total0 hv
      refine ⟨items0.map (fun i => { i with order_id := oid }), _, rfl, ?_, ?_, ?_, ?_⟩
      · simpa [List.map_map, Function.comp] using hs
      · intro i hi
        obtain ⟨j, hj, rfl⟩ := List.mem_map.mp hi
        exact hl j hj
      · simpa [List.map_map, Function.comp] using hmm
      · intro i hi
        obtain ⟨j, hj, rfl⟩ := List.mem_map.mp hi
        exact hp j hj

/-- Witness for C2 on the concrete cart {qty 2 @ 3.50, qty 1 @ 4.25}: the
total is exactly 11.25 (1125 cents). -/
theorem create_order_total_exact_witness :
    (create_order_commits dbCheckout 1 10 = .ok (checkoutEffs, checkoutOrder) ∧
      checkoutOrder.total_amount = 1125) ∧
    (∃ items hrow,
      checkoutEffs = [CommitEff.commitOrderCreation checkoutOrder items hrow,
        CommitEff.commitClearCart 1] ∧
      checkoutOrder.total_amount =
        (items.map (fun i => i.unit_price * i.quantity)).sum ∧
      (∀ i ∈ items, i.line_total = i.unit_price * i.quantity) ∧
      items.map (fun i => (i.menu_item_id, i.quantity)) =
        (get_cart_items_for_user dbCheckout 1).map (fun c => (c.menu_item_id, c.quantity)) ∧
      (∀ i ∈ items, ∃ m, find_menu_item dbCheckout i.menu_item_id = some m ∧
        i.unit_price = m.price ∧ m.is_available = true)) :=
  ⟨⟨by decide, by decide⟩, create_order_total_exact dbCheckout 1 10 checkoutEffs checkoutOrder (by decide)⟩

/-- Claim C5: `create_order_from_cart` fails with `EmptyCartError` on an
empty cart and with `ItemUnavailableError` when a referenced menu item is
missing or unavailable; in every failure case the database is unchanged — no
Order, OrderItem or OrderStatusHistory row is persisted. -/
theorem create_order_failure_cases (db : DB) (uid oid : Int) :
    (get_cart_items_for_user db uid = [] →
      create_order_from_cart db uid oid = (db, .error .emptyCart)) ∧
    (∀ e, (create_order_from_cart db uid oid).2 = .error e →
      (create_order_from_cart db uid oid).1 = db) ∧
    (∀ c ∈ get_cart_items_for_user db uid,
      ((find_menu_item db c.menu_item_id).all fun m => !m.is_available) = true →
      ∃ mid, (create_order_from_cart db uid oid).2 = .error (.itemUnavailable mid)) := by
  refine ⟨?_, ?_, ?_⟩
  · intro hemp
    simp [create_order_from_cart, create_order_commits, hemp]
  · intro e he
    simp only [create_order_from_cart] at he ⊢
    cases hc : create_order_commits db uid oid with
    | error e' => rfl
    | ok p => rw [hc] at he; exact absurd he (by simp)
  · intro c hc hbad
    obtain ⟨mid, hmid⟩ := validate_bad_line_error db (get_cart_items_for_user db uid) c hc hbad
    have hnil : (get_cart_items_for_user db uid).isEmpty = false := by
      cases hl : get_cart_items_for_user db uid with
      | nil => rw [hl] at hc; cases hc
      | cons a as => simp
    refine ⟨mid, ?_⟩
    simp [create_order_from_cart, create_order_commits, hnil, hmid]

/-- Witness for C5: the empty-cart failure on a user with no cart lines, and
the unavailable-item failure, both leaving the store unchanged. -/
theorem create_order_failure_cases_witness :
    (get_cart_items_for_user dbPending 7 = [] ∧
      create_order_from_cart dbPending 7 10 = (dbPending, .error .emptyCart)) ∧
    (∃ mid, (create_order_from_cart dbUnavailable 1 10).2 = .error (.itemUnavailable mid)) :=
  ⟨⟨by decide, (create_order_failure_cases dbPending 7 10).1 (by decide)⟩,
   (create_order_failure_cases dbUnavailable 1 10).2.2
     { id := 1, user_id := 1, menu_item_id := 101, quantity := 1 } (by decide) (by decide)⟩

/-- Counterexample to claim C7: on the concrete checkout `dbCheckout`, order
creation and cart clearing are two separate commits; after the first commit
alone — a database state the outside world can observe if the process stops
before the second — the order row exists while the cart that produced it is
still populated.  So creation and clearing do not form one atomic unit. -/
theorem checkout_intermediate_state_cx :
    create_order_commits dbCheckout 1 10 = .ok (checkoutEffs, checkoutOrder) ∧
    checkoutEffs.length = 2 ∧
    (applyCommit dbCheckout (CommitEff.commitOrderCreation checkoutOrder checkoutItems checkoutHist)).orders
      = [checkoutOrder] ∧
    (applyCommit dbCheckout (CommitEff.commitOrderCreation checkoutOrder checkoutItems checkoutHist)).cart_items
      = dbCheckout.cart_items ∧
    dbCheckout.cart_items ≠ [] := by decide

/-- Claim C7 (amended): a successful `create_order_from_cart` performs the
order-creation commit first and the cart-clearing commit second — two
sequential transactions, not one atomic unit — and after both commits the
user's cart is empty and the created order is persisted. -/
theorem checkout_clears_cart_after_creation (db : DB) (uid oid : Int)
    (effs : List CommitEff) (o : Order)
    (h : create_order_commits db uid oid = .ok (effs, o)) :
    (∃ items hrow,
      effs = [CommitEff.commitOrderCreation o items hrow, CommitEff.commitClearCart uid]) ∧
    get_cart_items_for_user (effs.foldl applyCommit db) uid = [] ∧
    o ∈ (effs.foldl applyCommit db).orders ∧
    create_order_from_cart db uid oid = (effs.foldl applyCommit db, .ok o) := by
  simp only [create_order_commits] at h
  split at h
  · exact absurd h (by simp)
  · split at h
    next e hv => exact absurd h (by simp)
    next items0 total0 hv =>
      simp only [Except.ok.injEq, Prod.mk.injEq] at h
      obtain ⟨heffs, ho⟩ := h
      subst heffs; subst ho
      refine ⟨⟨_, _, rfl⟩, ?_, ?_, ?_⟩
      · simp only [List.foldl, applyCommit, clear_cart, get_cart_items_for_user,
          List.filter_filter]
        apply List.filter_eq_nil_iff.mpr
        intro c _
        simp
      · simp [List.foldl, applyCommit, clear_cart]
      · simp only [create_order_from_cart, create_order_commits]
        rw [if_neg (by simp_all), hv]

/-- Witness for the amended C7 on the concrete checkout. -/
theorem checkout_clears_cart_after_creation_witness :
    create_order_commits dbCheckout 1 10 = .ok (checkoutEffs, checkoutOrder) ∧
    ((∃ items hrow,
      checkoutEffs = [CommitEff.commitOrderCreation checkoutOrder items hrow,
        CommitEff.commitClearCart 1]) ∧
    get_cart_items_for_user (checkoutEffs.foldl applyCommit dbCheckout) 1 = [] ∧
    checkoutOrder ∈ (checkoutEffs.foldl applyCommit dbCheckout).orders ∧
    create_order_from_cart dbCheckout 1 10 =
      (checkoutEffs.foldl applyCommit dbCheckout, .ok checkoutOrder)) :=
  ⟨by decide, checkout_clears_cart_after_creation dbCheckout 1 10 checkoutEffs checkoutOrder (by decide)⟩

/-- Counterexample to claim C3: on an order whose status is the terminal
`COMPLETED`, `update_order_status` is neither rejected nor ignored — it
succeeds, changes the status (here to `IN_PREPARATION`), and appends a third
`OrderStatusHistory` row. -/
theorem terminal_transition_not_rejected_cx :
    completedOrder.status = .COMPLETED ∧
    get_order_by_id dbCompleted 1 = .ok completedOrder ∧
    update_order_status_db dbCompleted 1 .IN_PREPARATION 9 =
      .ok ({ menu_items := [], cart_items := [],
             orders := [{ completedOrder with status := .IN_PREPARATION }],
             order_items := [],
             status_history := dbCompleted.status_history ++
               [{ order_id := 1, status := .IN_PREPARATION, changed_by_user_id := 9 }] },
           { completedOrder with status := .IN_PREPARATION }) ∧
    dbCompleted.status_history.length = 2 := by decide

/-- Claim C3 (amended): the transition operation enforces no terminal-state
guard: for every order found in the store, even one whose status is
`COMPLETED` or `CANCELED`, `update_order_status` succeeds, overwrites the
status with the requested one, and appends a new history row. -/
theorem terminal_states_not_enforced (db : DB) (oid staff : Int) (st : OrderStatus)
    (o : Order) (hfind : get_order_by_id db oid = .ok o)
    (_hterm : o.status = .COMPLETED ∨ o.status = .CANCELED) :
    update_order_status_db db oid st staff =
      .ok ((db.updateOrderRow oid (fun x => { x with status := st })).appendHistory
             { order_id := o.id, status := st, changed_by_user_id := staff },
           { o with status := st }) := by
  simp only [update_order_status_db, hfind]

/-- Witness for the amended C3 at the concrete `COMPLETED` order. -/
theorem terminal_states_not_enforced_witness :
    (get_order_by_id dbCompleted 1 = .ok completedOrder ∧
      completedOrder.status = .COMPLETED) ∧
    update_order_status_db dbCompleted 1 .READY_FOR_PICKUP 9 =
      .ok ((dbCompleted.updateOrderRow 1 (fun x => { x with status := .READY_FOR_PICKUP })).appendHistory
             { order_id := completedOrder.id, status := .READY_FOR_PICKUP, changed_by_user_id := 9 },
           { completedOrder with status := .READY_FOR_PICKUP }) :=
  ⟨⟨by decide, by decide⟩,
   terminal_states_not_enforced dbCompleted 1 9 .READY_FOR_PICKUP completedOrder
     (by decide) (Or.inl (by decide))⟩

/-- Claim C4: every successful `update_order_status` sets the order's status
to the requested one and appends exactly one history row carrying that status
and the acting user id, in the same committed state as the status mutation;
all prior history rows remain, so the history grows by exactly one. -/
theorem update_appends_exactly_one_history (db : DB) (oid : Int) (st : OrderStatus)
    (staff : Int) (db' : DB) (o : Order)
    (h : update_order_status_db db oid st staff = .ok (db', o)) :
    o.status = st ∧
    db'.status_history = db.status_history ++
      [{ order_id := o.id, status := st, changed_by_user_id := staff }] ∧
    db'.status_history.length = db.status_history.length + 1 ∧
    (∀ hrow ∈ db.status_history, hrow ∈ db'.status_history) ∧
    (∀ x ∈ db'.orders, x.id = oid → x.status = st) := by
  simp only [update_order_status_db] at h
  cases hf : get_order_by_id db oid with
  | error e => rw [hf] at h; exact absurd h (by simp)
  | ok ord =>
    rw [hf] at h
    simp only [Except.ok.injEq, Prod.mk.injEq] at h
    obtain ⟨hdb, ho⟩ := h
    subst hdb; subst ho
    refine ⟨rfl, ?_, ?_, ?_, ?_⟩
    · rfl
    · simp [DB.appendHistory, DB.updateOrderRow]
    · intro hrow hmem
      simp only [DB.appendHistory, DB.updateOrderRow, List.mem_append]
      exact Or.inl hmem
    · intro x hx hxid
      simp only [DB.appendHistory, DB.updateOrderRow, List.mem_map] at hx
      obtain ⟨y, _, rfl⟩ := hx
      by_cases hy : y.id == oid
      · simp [hy]
      · rw [if_neg hy] at hxid ⊢
        exact absurd (by simpa using hxid) (by simpa using hy)

/-- Witness for C4 on the concrete pending order. -/
theorem update_appends_exactly_one_history_witness :
    update_order_status_db dbPending 1 .ACCEPTED 9 =
      .ok ({ menu_items := [], cart_items := [],
             orders := [{ pendingOrder with status := .ACCEPTED }],
             order_items := [],
             status_history := dbPending.status_history ++
               [{ order_id := 1, status := .ACCEPTED, changed_by_user_id := 9 }] },
           { pendingOrder with status := .ACCEPTED }) ∧
    ({ pendingOrder with status := OrderStatus.ACCEPTED }).status = .ACCEPTED ∧
    ({ menu_items := [], cart_items := [],
       orders := [{ pendingOrder with status := .ACCEPTED }],
       order_items := [],
       status_history := dbPending.status_history ++
         [{ order_id := 1, status := .ACCEPTED, changed_by_user_id := 9 }] } : DB).status_history.length
      = dbPending.status_history.length + 1 :=
  ⟨by decide,
   (update_appends_exactly_one_history dbPending 1 .ACCEPTED 9
     { menu_items := [], cart_items := [],
       orders := [{ pendingOrder with status := .ACCEPTED }],
       order_items := [],
       status_history := dbPending.status_history ++
         [{ order_id := 1, status := .ACCEPTED, changed_by_user_id := 9 }] }
     { pendingOrder with status := .ACCEPTED } (by decide)).1,
   (update_appends_exactly_one_history dbPending 1 .ACCEPTED 9
     { menu_items := [], cart_items := [],
       orders := [{ pendingOrder with status := .ACCEPTED }],
       order_items := [],
       status_history := dbPending.status_history ++
         [{ order_id := 1, status := .ACCEPTED, changed_by_user_id := 9 }] }
     { pendingOrder with status := .ACCEPTED } (by decide)).2.2.1⟩

/-- `find?` over a key-preserving map rewrites entry values but keeps the
first hit. -/
theorem find?_map_keyPreserving (l : List (Int × List Nat)) (oid : Int)
    (f : Int × List Nat → Int × List Nat) (hf : ∀ e, (f e).1 = e.1) :
    (l.map f).find? (fun e => e.1 == oid) = (l.find? (fun e => e.1 == oid)).map f := by
  induction l with
  | nil => rfl
  | cons a l ih =>
    cases hb : (a.1 == oid) with
    | true => simp [List.find?_cons, hf, hb]
    | false => simp [List.find?_cons, hf, hb, ih]

/-- `_remove_connection` acts on the affected order id's entry as `pruneOne`. -/
theorem lookup_remove_connection (r : Registry) (oid : Int) (ws : Nat) :
    (remove_connection r oid ws).lookup oid = pruneOne ws (r.lookup oid) := by
  simp only [remove_connection]
  cases hl : r.lookup oid with
  | none => simpa [pruneOne] using hl
  | some conns =>
    simp only [pruneOne]
    by_cases hemp : (if conns.contains ws then removeFirst ws conns else conns).isEmpty = true
    · rw [if_pos hemp, if_pos hemp]
      simp only [Registry.lookup]
      rw [List.find?_eq_none.mpr]
      · rfl
      · intro e he
        have := List.of_mem_filter he
        simpa using this
    · rw [if_neg hemp, if_neg hemp]
      have hkp : ∀ e : Int × List Nat,
          ((if e.1 == oid then (e.1, if conns.contains ws then removeFirst ws conns else conns)
            else e) : Int × List Nat).1 = e.1 := by
        intro e
        by_cases h : e.1 == oid <;> simp [h]
      simp only [Registry.lookup] at hl ⊢
      rw [find?_map_keyPreserving _ oid _ hkp]
      cases hf : r.find? (fun e => e.1 == oid) with
      | none => rw [hf] at hl; exact absurd hl (by simp)
      | some entry =>
        rw [hf] at hl
        have hkeq : entry.1 = oid := by simpa using List.find?_some hf
        simp [hkeq]

/-- `list.remove(ws)` drops exactly one occurrence of `ws`. -/
theorem count_removeFirst_self (ws : Nat) (l : List Nat) :
    (removeFirst ws l).count ws = l.count ws - 1 := by
  induction l with
  | nil => rfl
  | cons a l ih =>
    by_cases ha : a = ws
    · subst ha
      rw [removeFirst, if_pos (by simp)]
      simp [List.count_cons]
    · rw [removeFirst, if_neg (by simpa using ha)]
      rw [List.count_cons, List.count_cons, ih]
      have hne : ¬(ws = a) := fun h => ha h.symm
      simp only [beq_iff_eq, hne, ha, if_false]
      omega

/-- `list.remove(ws)` leaves the count of every other channel unchanged. -/
theorem count_removeFirst_ne (ws v : Nat) (l : List Nat) (hne : v ≠ ws) :
    (removeFirst ws l).count v = l.count v := by
  induction l with
  | nil => rfl
  | cons a l ih =>
    by_cases ha : a = ws
    · subst ha
      rw [removeFirst, if_pos (by simp)]
      rw [List.count_cons, if_neg (by simpa using fun h : a = v => hne h.symm)]
      omega
    · rw [removeFirst, if_neg (by simpa using ha)]
      rw [List.count_cons, List.count_cons, ih]

/-- One `pruneOne` step changes occurrence counts exactly like one removal. -/
theorem pruneOne_count (ws v : Nat) (o : Option (List Nat)) :
    ((pruneOne ws o).getD []).count v =
      (o.getD []).count v - (if v = ws ∧ ws ∈ (o.getD []) then 1 else 0) := by
  cases o with
  | none => simp [pruneOne]
  | some conns =>
    simp only [pruneOne, Option.getD_some]
    by_cases hc : conns.contains ws = true
    · have hmem : ws ∈ conns := by simpa using hc
      rw [if_pos hc]
      by_cases hv : v = ws
      · subst hv
        have hand : v = v ∧ v ∈ conns := ⟨rfl, hmem⟩
        have hcount := count_removeFirst_self v conns
        by_cases hemp : (removeFirst v conns).isEmpty = true
        · rw [if_pos hemp]
          have hnil : removeFirst v conns = [] := List.isEmpty_iff.mp hemp
          rw [hnil] at hcount
          simp only [List.count_nil] at hcount
          rw [if_pos hand]
          simp only [Option.getD_none, List.count_nil]
          omega
        · rw [if_neg hemp]
          rw [if_pos hand]
          simpa using hcount
      · have hnand : ¬(v = ws ∧ ws ∈ conns) := fun h => hv h.1
        have hcv := count_removeFirst_ne ws v conns hv
        by_cases hemp : (removeFirst ws conns).isEmpty = true
        · rw [if_pos hemp]
          have hnil : removeFirst ws conns = [] := List.isEmpty_iff.mp hemp
          rw [hnil] at hcv
          simp only [List.count_nil] at hcv
          rw [if_neg hnand]
          simp only [Option.getD_none, List.count_nil]
          omega
        · rw [if_neg hemp]
          rw [if_neg hnand]
          simpa using hcv
    · have hnmem : ws ∉ conns := by simpa using hc
      rw [if_neg hc]
      by_cases hemp : conns.isEmpty = true
      · rw [if_pos hemp]
        have hnil : conns = [] := List.isEmpty_iff.mp hemp
        simp [hnil]
      · rw [if_neg hemp]
        have hnand : ¬(v = ws ∧ ws ∈ conns) := fun h => hnmem h.2
        rw [if_neg hnand]
        simp

/-- Folding `_remove_connection` over the dead channels acts on the affected
order id's entry as folding `pruneOne`. -/
theorem lookup_fold_remove (dead : List Nat) (r : Registry) (oid : Int) :
    (dead.foldl (fun acc ws => remove_connection acc oid ws) r).lookup oid =
      dead.foldl (fun acc ws => pruneOne ws acc) (r.lookup oid) := by
  induction dead generalizing r with
  | nil => rfl
  | cons d rest ih =>
    simp only [List.foldl_cons]
    rw [ih, lookup_remove_connection]

/-- Folding `pruneOne` over the dead list removes one occurrence per dead
entry, truncating at zero. -/
theorem fold_pruneOne_count (dead : List Nat) (o : Option (List Nat)) (v : Nat) :
    ((dead.foldl (fun acc ws => pruneOne ws acc) o).getD []).count v =
      (o.getD []).count v - dead.count v := by
  induction dead generalizing o with
  | nil => simp
  | cons d rest ih =>
    simp only [List.foldl_cons]
    rw [ih, pruneOne_count, List.count_cons]
    by_cases hv : v = d
    · subst hv
      by_cases hm : v ∈ (o.getD [])
      · have hpos : 0 < (o.getD []).count v := List.count_pos_iff.mpr hm
        have hand : v = v ∧ v ∈ (o.getD []) := ⟨rfl, hm⟩
        rw [if_pos hand, if_pos (beq_self_eq_true v)]
        omega
      · have hzero : (o.getD []).count v = 0 := List.count_eq_zero.mpr hm
        have hnand : ¬(v = v ∧ v ∈ (o.getD [])) := fun h => hm h.2
        rw [if_neg hnand, if_pos (beq_self_eq_true v)]
        omega
    · have hnand : ¬(v = d ∧ d ∈ (o.getD [])) := fun h => hv h.1
      have hnbeq : ¬((d == v) = true) := by simpa using fun h : d = v => hv h.symm
      rw [if_neg hnand, if_neg hnbeq]
      omega

/-- Claim C9: `broadcast_status` pushes the event to every healthy channel
registered under the event's order id — a failing channel never prevents
delivery to the remaining ones — and afterwards every channel whose push
raised is no longer registered under that order id. -/
theorem broadcast_delivers_and_prunes (sendOk : Nat → Bool) (r : Registry)
    (ev : OrderStatusEvent) :
    (∀ ws ∈ (r.lookup ev.orderId).getD [], sendOk ws = true →
      (ws, ev) ∈ (broadcast_status sendOk r ev).2) ∧
    (∀ ws ∈ (r.lookup ev.orderId).getD [], sendOk ws = false →
      ws ∉ (((broadcast_status sendOk r ev).1).lookup ev.orderId).getD []) := by
  constructor
  · intro ws hmem hok
    simp only [broadcast_status, List.mem_map]
    exact ⟨ws, List.mem_filter.mpr ⟨hmem, hok⟩, rfl⟩
  · intro ws hmem hfail
    simp only [broadcast_status]
    rw [← List.count_pos_iff]
    rw [lookup_fold_remove, fold_pruneOne_count]
    have hcnt : ((r.lookup ev.orderId).getD []).count ws =
        (((r.lookup ev.orderId).getD []).filter (fun w => !(sendOk w))).count ws := by
      rw [List.count_filter]
      simp [hfail]
    omega

/-- Witness for C9 on the registry `[(1, [2, 3, 2, 4]), (5, [9])]` where
channel 2 is dead: 3 receives the event and 2 is fully deregistered. -/
theorem broadcast_delivers_and_prunes_witness :
    ((3, ({ orderId := 1, status := .ACCEPTED } : OrderStatusEvent)) ∈
      (broadcast_status wsOk reg0 { orderId := 1, status := .ACCEPTED }).2) ∧
    (2 ∉ (((broadcast_status wsOk reg0 { orderId := 1, status := .ACCEPTED }).1).lookup 1).getD []) :=
  ⟨(broadcast_delivers_and_prunes wsOk reg0 { orderId := 1, status := .ACCEPTED }).1
      3 (by decide) (by decide),
   (broadcast_delivers_and_prunes wsOk reg0 { orderId := 1, status := .ACCEPTED }).2
      2 (by decide) (by decide)⟩

/-- `connect` preserves registry well-formedness. -/
theorem connect_WF (r : Registry) (hr : RegistryWF r) (oid : Int) (ws : Nat) :
    RegistryWF (connect r oid ws) := by
  obtain ⟨hnd, hne⟩ := hr
  simp only [connect]
  split
  next hl =>
    have hfind : r.find? (fun e => e.1 == oid) = none := by
      simp only [Registry.lookup] at hl
      cases hf : r.find? (fun e => e.1 == oid) with
      | none => rfl
      | some e => rw [hf] at hl; exact absurd hl (by simp)
    have hkeys := List.find?_eq_none.mp hfind
    constructor
    · rw [List.map_append]
      refine List.Nodup.append hnd (by simp) ?_
      intro a ha hb
      simp only [List.map_cons, List.map_nil, List.mem_singleton] at hb
      subst hb
      obtain ⟨e, he, hkey⟩ := List.mem_map.mp ha
      exact absurd (hkeys e he) (by simp [hkey])
    · intro e he
      rcases List.mem_append.mp he with h | h
      · exact hne e h
      · simp only [List.mem_singleton] at h
        subst h
        simp
  next conns hl =>
    constructor
    · have hk : (r.map (fun e => if e.1 == oid then (e.1, e.2 ++ [ws]) else e)).map
          (fun e => e.1) = r.map (fun e => e.1) := by
        rw [List.map_map]
        apply List.map_congr_left
        intro e _
        by_cases h : e.1 = oid <;> simp [h]
      rw [hk]
      exact hnd
    · intro e he
      obtain ⟨y, hy, rfl⟩ := List.mem_map.mp he
      by_cases h : y.1 = oid
      · simp [h]
      · rw [if_neg (by simpa using h)]
        exact hne y hy

/-- `connect` only appends the new channel at the end of the order id's
entry, creating the entry when absent. -/
theorem connect_lookup (r : Registry) (oid : Int) (ws : Nat) :
    ((connect r oid ws).lookup oid).getD [] = ((r.lookup oid).getD []) ++ [ws] := by
  simp only [connect]
  split
  next hl =>
    have hfind : r.find? (fun e => e.1 == oid) = none := by
      simp only [Registry.lookup] at hl
      cases hf : r.find? (fun e => e.1 == oid) with
      | none => rfl
      | some e => rw [hf] at hl; exact absurd hl (by simp)
    rw [hl]
    simp only [Registry.lookup, List.find?_append, hfind]
    simp
  next conns hl =>
    have hkp : ∀ e : Int × List Nat,
        ((if e.1 == oid then (e.1, e.2 ++ [ws]) else e) : Int × List Nat).1 = e.1 := by
      intro e
      by_cases h : e.1 = oid <;> simp [h]
    rw [hl]
    simp only [Registry.lookup] at hl ⊢
    rw [find?_map_keyPreserving _ oid _ hkp]
    cases hf : r.find? (fun e => e.1 == oid) with
    | none => rw [hf] at hl; exact absurd hl (by simp)
    | some entry =>
      rw [hf] at hl
      have hkeq : entry.1 = oid := by simpa using List.find?_some hf
      have hval : entry.2 = conns := by simpa using hl
      simp [hkeq, hval]

/-- `_remove_connection` preserves registry well-formedness. -/
theorem remove_connection_WF (r : Registry) (hr : RegistryWF r) (oid : Int) (ws : Nat) :
    RegistryWF (remove_connection r oid ws) := by
  obtain ⟨hnd, hne⟩ := hr
  simp only [remove_connection]
  split
  next hl => exact ⟨hnd, hne⟩
  next conns hl =>
    by_cases hemp : (if conns.contains ws then removeFirst ws conns else conns).isEmpty = true
    · rw [if_pos hemp]
      constructor
      · exact hnd.sublist ((List.filter_sublist r).map (fun e => e.1))
      · intro e he
        exact hne e (List.mem_of_mem_filter he)
    · rw [if_neg hemp]
      constructor
      · have hk : (r.map (fun e => if e.1 == oid
            then (e.1, if conns.contains ws then removeFirst ws conns else conns) else e)).map
            (fun e => e.1) = r.map (fun e => e.1) := by
          rw [List.map_map]
          apply List.map_congr_left
          intro e _
          by_cases h : e.1 = oid <;> simp [h]
        rw [hk]
        exact hnd
      · intro e he
        obtain ⟨y, hy, rfl⟩ := List.mem_map.mp he
        by_cases h : (y.1 == oid) = true
        · rw [if_pos h]
          intro hnil
          refine hemp ?_
          rw [List.isEmpty_iff]
          exact hnil
        · rw [if_neg h]
          exact hne y hy

/-- Removing a channel that is not registered under the order id never fails
and leaves the registry unchanged. -/
theorem remove_connection_noop (r : Registry) (hr : RegistryWF r) (oid : Int) (ws : Nat)
    (h : ws ∉ (r.lookup oid).getD []) : remove_connection r oid ws = r := by
  obtain ⟨hnd, hne⟩ := hr
  simp only [remove_connection]
  split
  next hl => rfl
  next conns hl =>
    have hws : ws ∉ conns := by rw [hl] at h; simpa using h
    have hcont : ¬(conns.contains ws = true) := by simpa using hws
    rw [if_neg hcont]
    obtain ⟨entry, hf, hval⟩ : ∃ e, r.find? (fun e => e.1 == oid) = some e ∧ e.2 = conns := by
      simp only [Registry.lookup] at hl
      cases hf : r.find? (fun e => e.1 == oid) with
      | none => rw [hf] at hl; exact absurd hl (by simp)
      | some e => rw [hf] at hl; exact ⟨e, rfl, by simpa using hl⟩
    have hmem : entry ∈ r := List.mem_of_find?_eq_some hf
    have hconne : conns ≠ [] := hval ▸ hne entry hmem
    rw [if_neg (by simpa [List.isEmpty_iff] using hconne)]
    have hkeq : entry.1 = oid := by simpa using List.find?_some hf
    have hid : ∀ e ∈ r, (if e.1 == oid then ((e.1, conns) : Int × List Nat) else e) = e := by
      intro e he
      by_cases hek : (e.1 == oid) = true
      · rw [if_pos hek]
        have heq : e = entry := by
          apply List.inj_on_of_nodup_map hnd he hmem
          show e.1 = entry.1
          rw [show e.1 = oid from by simpa using hek, hkeq]
        subst heq
        rw [← hval]
      · rw [if_neg hek]
    rw [List.map_congr_left hid]
    simp

/-- As soon as its last channel is removed, the order id's entry is deleted
entirely. -/
theorem remove_connection_deletes_empty (r : Registry) (oid : Int) (ws : Nat)
    (h : r.lookup oid = some [ws]) :
    (remove_connection r oid ws).lookup oid = none := by
  rw [lookup_remove_connection, h]
  simp [pruneOne, removeFirst]

/-- Dead-channel pruning after a broadcast preserves well-formedness. -/
theorem fold_remove_WF (dead : List Nat) (oid : Int) (r : Registry) (hr : RegistryWF r) :
    RegistryWF (dead.foldl (fun acc ws => remove_connection acc oid ws) r) := by
  induction dead generalizing r with
  | nil => exact hr
  | cons d rest ih => exact ih _ (remove_connection_WF r hr oid d)

/-- Claim C10: the registry keeps every present order id mapped to a
non-empty channel list across `connect`, `_remove_connection` (hence
`disconnect`) and `broadcast_status`; `connect` only appends the channel;
removing a never-registered channel is a no-op that cannot fail; removing the
last channel deletes the entry entirely; and broadcasting to an order id with
no entry delivers nothing and leaves the registry unchanged. -/
theorem registry_invariants (r : Registry) (hr : RegistryWF r) :
    (∀ oid ws, RegistryWF (connect r oid ws)) ∧
    (∀ oid ws, ((connect r oid ws).lookup oid).getD [] = ((r.lookup oid).getD []) ++ [ws]) ∧
    (∀ oid ws, RegistryWF (remove_connection r oid ws)) ∧
    (∀ oid ws, ws ∉ (r.lookup oid).getD [] → remove_connection r oid ws = r) ∧
    (∀ oid ws, r.lookup oid = some [ws] → (remove_connection r oid ws).lookup oid = none) ∧
    (∀ sendOk ev, RegistryWF (broadcast_status sendOk r ev).1) ∧
    (∀ (sendOk : Nat → Bool) (ev : OrderStatusEvent), r.lookup ev.orderId = none →
      (broadcast_status sendOk r ev).1 = r ∧ (broadcast_status sendOk r ev).2 = []) := by
  refine ⟨fun oid ws => connect_WF r hr oid ws,
    fun oid ws => connect_lookup r oid ws,
    fun oid ws => remove_connection_WF r hr oid ws,
    fun oid ws h => remove_connection_noop r hr oid ws h,
    fun oid ws h => remove_connection_deletes_empty r oid ws h,
    fun sendOk ev => fold_remove_WF _ _ r hr,
    fun sendOk ev h => ?_⟩
  constructor
  · simp [broadcast_status, h]
  · simp [broadcast_status, h]

/-- Witness for C10 on the concrete registry `reg0`. -/
theorem registry_invariants_witness :
    RegistryWF reg0 ∧
    RegistryWF (connect reg0 7 11) ∧
    ((connect reg0 7 11).lookup 7).getD [] = [11] ∧
    remove_connection reg0 1 99 = reg0 ∧
    (broadcast_status wsOk reg0 { orderId := 42, status := .PENDING }).1 = reg0 :=
  ⟨⟨by decide, by decide⟩,
   (registry_invariants reg0 ⟨by decide, by decide⟩).1 7 11,
   by
     have := (registry_invariants reg0 ⟨by decide, by decide⟩).2.1 7 11
     simpa using this,
   (registry_invariants reg0 ⟨by decide, by decide⟩).2.2.2.1 1 99 (by decide),
   ((registry_invariants reg0 ⟨by decide, by decide⟩).2.2.2.2.2.2 wsOk
     { orderId := 42, status := .PENDING } (by decide)).1⟩

/-- Counterexample to claim C8: invoked from a plain synchronous context — no
anyio worker portal and no running asyncio loop — the transition commits (the
returned state carries the new status and the appended history row) but the
broadcast fallback's `asyncio.get_running_loop()` raises a `RuntimeError`
that propagates to the caller instead of the updated order being returned. -/
theorem broadcast_error_escapes_cx :
    update_order_status bareSyncEnv dbPending 1 .ACCEPTED 9 =
      .broadcastRuntimeError
        { menu_items := [], cart_items := [],
          orders := [{ pendingOrder with status := .ACCEPTED }],
          order_items := [],
          status_history := dbPending.status_history ++
            [{ order_id := 1, status := .ACCEPTED, changed_by_user_id := 9 }] }
        { pendingOrder with status := .ACCEPTED } := by decide

/-- Claim C8 (amended): after a successful transition commit, the broadcast
dispatch never rolls the commit back, and any exception it hits is swallowed
and the updated order returned — except in exactly one situation: the
dispatch path raises `RuntimeError` (no worker portal, or the coroutine
itself raised `RuntimeError`) while no asyncio loop is running, in which case
a `RuntimeError` escapes to the caller; even then the committed status change
and history row stand. -/
theorem broadcast_failures_swallowed (env : RuntimeEnv) (db : DB) (oid : Int)
    (st : OrderStatus) (staff : Int) (db' : DB) (o : Order)
    (hdb : update_order_status_db db oid st staff = .ok (db', o)) :
    (update_order_status env db oid st staff = .ok db' o ∨
      update_order_status env db oid st staff = .broadcastRuntimeError db' o) ∧
    (update_order_status env db oid st staff = .broadcastRuntimeError db' o ↔
      env.running_loop = false ∧
        (env.in_portal_worker_thread = false ∨ env.broadcast_exc = some .runtimeError)) := by
  obtain ⟨portal, loop, exc⟩ := env
  have hexc : exc = none ∨ exc = some .runtimeError ∨ exc = some .otherError := by
    rcases exc with _ | e
    · exact Or.inl rfl
    · cases e
      · exact Or.inr (Or.inl rfl)
      · exact Or.inr (Or.inr rfl)
  rcases hexc with rfl | rfl | rfl <;> cases portal <;> cases loop <;>
    simp [update_order_status, hdb, dispatch_broadcast]

/-- Witness for the amended C8 in the deployed runtime context. -/
theorem broadcast_failures_swallowed_witness :
    update_order_status_db dbPending 1 .ACCEPTED 9 =
      .ok ({ menu_items := [], cart_items := [],
             orders := [{ pendingOrder with status := .ACCEPTED }],
             order_items := [],
             status_history := dbPending.status_history ++
               [{ order_id := 1, status := .ACCEPTED, changed_by_user_id := 9 }] },
           { pendingOrder with status := .ACCEPTED }) ∧
    update_order_status quietEnv dbPending 1 .ACCEPTED 9 =
      .ok { menu_items := [], cart_items := [],
            orders := [{ pendingOrder with status := .ACCEPTED }],
            order_items := [],
            status_history := dbPending.status_history ++
              [{ order_id := 1, status := .ACCEPTED, changed_by_user_id := 9 }] }
          { pendingOrder with status := .ACCEPTED } := by
  refine ⟨by decide, ?_⟩
  have h := (broadcast_failures_swallowed quietEnv dbPending 1 .ACCEPTED 9
    { menu_items := [], cart_items := [],
      orders := [{ pendingOrder with status := .ACCEPTED }],
      order_items := [],
      status_history := dbPending.status_history ++
        [{ order_id := 1, status := .ACCEPTED, changed_by_user_id := 9 }] }
    { pendingOrder with status := .ACCEPTED } (by decide))
  rcases h.1 with hout | hout
  · exact hout
  · exact absurd (h.2.mp hout).1 (by decide)

theorem frame_refl (db : DB) : FramePreserved db db := ⟨rfl, rfl, rfl, rfl⟩

theorem frame_trans {a b c : DB} (h1 : FramePreserved a b) (h2 : FramePreserved b c) :
    FramePreserved a c :=
  ⟨h2.1.trans h1.1, h2.2.1.trans h1.2.1, h2.2.2.1.trans h1.2.2.1, h2.2.2.2.trans h1.2.2.2⟩

/-- An in-place row update that keeps id, owner and total preserves the
frame. -/
theorem updateOrderRow_frame (db : DB) (oid : Int) (f : Order → Order)
    (hf : ∀ o, (f o).id = o.id ∧ (f o).user_id = o.user_id ∧
      (f o).total_amount = o.total_amount) :
    FramePreserved db (db.updateOrderRow oid f) := by
  refine ⟨?_, rfl, rfl, rfl⟩
  simp only [DB.updateOrderRow, List.map_map]
  apply List.map_congr_left
  intro x _
  show Order.frameView (if x.id == oid then f x else x) = Order.frameView x
  by_cases h : (x.id == oid) = true
  · rw [if_pos h]
    obtain ⟨h1, h2, h3⟩ := hf x
    simp [Order.frameView, h1, h2, h3]
  · rw [if_neg h]

theorem appendHistory_frame (db : DB) (h : OrderStatusHistory) :
    FramePreserved db (db.appendHistory h) := ⟨rfl, rfl, rfl, rfl⟩

/-- The committed state of `update_order_status` preserves the frame. -/
theorem update_db_frame (db : DB) (oid : Int) (st : OrderStatus) (staff : Int)
    (db' : DB) (o : Order)
    (h : update_order_status_db db oid st staff = .ok (db', o)) :
    FramePreserved db db' := by
  simp only [update_order_status_db] at h
  cases hf : get_order_by_id db oid with
  | error e => rw [hf] at h; exact absurd h (by simp)
  | ok ord =>
    rw [hf] at h
    simp only [Except.ok.injEq, Prod.mk.injEq] at h
    obtain ⟨hdb, _⟩ := h
    subst hdb
    exact frame_trans
      (updateOrderRow_frame db oid (fun x => { x with status := st }) (fun x => ⟨rfl, rfl, rfl⟩))
      (appendHistory_frame _ _)

/-- Both committed outcomes of the full `update_order_status` preserve the
frame. -/
theorem update_outcome_frame (env : RuntimeEnv) (db : DB) (oid : Int)
    (st : OrderStatus) (staff : Int) :
    (∀ db' o, update_order_status env db oid st staff = .ok db' o →
      FramePreserved db db') ∧
    (∀ db' o, update_order_status env db oid st staff = .broadcastRuntimeError db' o →
      FramePreserved db db') := by
  simp only [update_order_status]
  cases hdb : update_order_status_db db oid st staff with
  | error e =>
    constructor <;> intro db' o h <;> cases h
  | ok p =>
    obtain ⟨db2, o2⟩ := p
    have hfr := update_db_frame db oid st staff db2 o2 hdb
    cases hd : dispatch_broadcast env with
    | ok d =>
      constructor
      · intro db' o h
        cases h
        exact hfr
      · intro db' o h
        cases h
    | error u =>
      constructor
      · intro db' o h
        cases h
      · intro db' o h
        cases h
        exact hfr

/-- `_cancel_order_due_to_payment` preserves the frame in every outcome. -/
theorem cancel_frame (env : RuntimeEnv) (db : DB) (order : Order) (label msg : String) :
    FramePreserved db (cancel_order_due_to_payment env db order label msg).1 := by
  simp only [cancel_order_due_to_payment]
  have h1 : FramePreserved db (db.updateOrderRow order.id (fun x =>
      { x with payment_provider := some "PAYPAL", payment_status := some label })) :=
    updateOrderRow_frame db order.id _ (fun x => ⟨rfl, rfl, rfl⟩)
  cases h2 : update_order_status env
      (db.updateOrderRow order.id (fun x =>
        { x with payment_provider := some "PAYPAL", payment_status := some label }))
      order.id .CANCELED order.user_id with
  | ok db2 o2 =>
    exact frame_trans h1 ((update_outcome_frame env _ order.id .CANCELED order.user_id).1 db2 o2 h2)
  | notFound => exact h1
  | broadcastRuntimeError db2 o2 =>
    exact frame_trans h1 ((update_outcome_frame env _ order.id .CANCELED order.user_id).2 db2 o2 h2)

/-- `capture_paypal_order` preserves the frame in every outcome. -/
theorem capture_frame (benv : RuntimeEnv) (cenv : CaptureEnv) (db : DB)
    (oid : Int) (pid : String) (uid : Int) :
    FramePreserved db (capture_paypal_order benv cenv db oid pid uid).1 := by
  simp only [capture_paypal_order]
  cases hget : get_order_by_id db oid with
  | error e => exact frame_refl db
  | ok order =>
    cases hbody : cenv.body with
    | none =>
      dsimp only
      repeat' split
      all_goals exact frame_refl db
    | some data =>
      dsimp only
      cases hparse : parse_capture_payload data order.id with
      | customIdMismatch =>
        dsimp only
        repeat' split
        all_goals try exact frame_refl db
        all_goals try exact cancel_frame benv db order _ _
        all_goals
          exact frame_trans (cancel_frame benv db order _ _)
            (cancel_frame benv _ order _ _)
      | parseError =>
        dsimp only
        repeat' split
        all_goals try exact frame_refl db
        all_goals exact cancel_frame benv db order _ _
      | parsed tid amt =>
        dsimp only
        repeat' split
        all_goals try exact frame_refl db
        all_goals try exact cancel_frame benv db order _ _
        all_goals
          first
            | (rename_i db2 o2 heq
               refine frame_trans ?_
                 ((update_outcome_frame benv _ oid .ACCEPTED order.user_id).1 db2 o2 heq)
               exact updateOrderRow_frame db order.id _ (fun x => ⟨rfl, rfl, rfl⟩))
            | (rename_i db2 o2 heq
               refine frame_trans ?_
                 ((update_outcome_frame benv _ oid .ACCEPTED order.user_id).2 db2 o2 heq)
               exact updateOrderRow_frame db order.id _ (fun x => ⟨rfl, rfl, rfl⟩))
            | exact updateOrderRow_frame db order.id
                (fun x =>
                  { x with
                    payment_provider := some "PAYPAL",
                    payment_status := some (data.status.getD ""),
                    paypal_order_id := some pid,
                    paypal_capture_id := some tid })
                (fun x => ⟨rfl, rfl, rfl⟩)

/-- `create_paypal_order` preserves the frame in every outcome. -/
theorem create_paypal_frame (env : CreateEnv) (db : DB) (oid uid : Int) :
    FramePreserved db (create_paypal_order env db oid uid).1 := by
  simp only [create_paypal_order]
  cases hget : get_order_by_id db oid with
  | error e => exact frame_refl db
  | ok order =>
    cases hpd : env.paypal_id with
    | none =>
      dsimp only
      repeat' split
      all_goals exact frame_refl db
    | some paypal_order_id =>
      dsimp only
      repeat' split
      all_goals try exact frame_refl db
      all_goals
        exact updateOrderRow_frame db order.id
          (fun x =>
            { x with
              payment_provider := some "PAYPAL",
              payment_status := some (env.reported_status.getD "CREATED"),
              paypal_order_id := some paypal_order_id })
          (fun x => ⟨rfl, rfl, rfl⟩)

/-- Every single post-creation operation preserves the frame. -/
theorem applySysOp_frame (db : DB) (op : SysOp) : FramePreserved db (applySysOp db op) := by
  cases op with
  | opUpdateStatus env oid st staff =>
    simp only [applySysOp]
    cases h : update_order_status env db oid st staff with
    | ok db' o => exact (update_outcome_frame env db oid st staff).1 db' o h
    | notFound => exact frame_refl db
    | broadcastRuntimeError db' o => exact (update_outcome_frame env db oid st staff).2 db' o h
  | opPaypalCreate env oid uid => exact create_paypal_frame env db oid uid
  | opPaypalCapture benv cenv oid pid uid => exact capture_frame benv cenv db oid pid uid

/-- Claim C6: across any sequence of status transitions, payment-session
creations and payment captures, every order row keeps its creation-time
identity, owner and `total_amount`, and the `OrderItem` rows (as well as the
menu and cart tables) are never mutated — these operations only touch the
status, the payment fields, and the appended history. -/
theorem payment_ops_preserve_totals (db : DB) (ops : List SysOp) :
    (ops.foldl applySysOp db).orders.map Order.frameView = db.orders.map Order.frameView ∧
    (ops.foldl applySysOp db).order_items = db.order_items ∧
    (ops.foldl applySysOp db).menu_items = db.menu_items ∧
    (ops.foldl applySysOp db).cart_items = db.cart_items := by
  suffices h : FramePreserved db (ops.foldl applySysOp db) from h
  induction ops generalizing db with
  | nil => exact frame_refl db
  | cons op rest ih =>
    simp only [List.foldl_cons]
    exact frame_trans (applySysOp_frame db op) (ih (applySysOp db op))

/-- `find?` by id over an id-preserving row map rewrites the found row. -/
theorem find?_map_idPreserving (l : List Order) (oid : Int) (g : Order → Order)
    (hg : ∀ o, (g o).id = o.id) :
    (l.map g).find? (fun o => o.id == oid) = (l.find? (fun o => o.id == oid)).map g := by
  induction l with
  | nil => rfl
  | cons a l ih =>
    cases hb : (a.id == oid) with
    | true => simp [List.find?_cons, hg, hb]
    | false => simp [List.find?_cons, hg, hb, ih]

/-- The loaded row after an in-place update of the same id. -/
theorem get_order_updateOrderRow (db : DB) (oid : Int) (f : Order → Order)
    (hf : ∀ o, (f o).id = o.id) :
    get_order_by_id (db.updateOrderRow oid f) oid = (get_order_by_id db oid).map f := by
  simp only [get_order_by_id, DB.updateOrderRow]
  have hg : ∀ o : Order, ((if o.id == oid then f o else o) : Order).id = o.id := by
    intro o
    by_cases h : (o.id == oid) = true
    · rw [if_pos h]; exact hf o
    · rw [if_neg h]
  rw [find?_map_idPreserving _ oid _ hg]
  cases hfo : db.orders.find? (fun o => o.id == oid) with
  | none => rfl
  | some o =>
    have hid : o.id = oid := by simpa using List.find?_some hfo
    simp [Except.map, hid]

/-- The id of the loaded row equals the requested id. -/
theorem get_order_by_id_ok_id (db : DB) (oid : Int) (o : Order)
    (h : get_order_by_id db oid = .ok o) : o.id = oid := by
  simp only [get_order_by_id] at h
  cases hfo : db.orders.find? (fun x => x.id == oid) with
  | none => rw [hfo] at h; exact absurd h (by simp)
  | some x =>
    rw [hfo] at h
    have hid : x.id = oid := by simpa using List.find?_some hfo
    simp only [Except.ok.injEq] at h
    rw [← h]
    exact hid

/-- Appending history does not change which order rows are loaded. -/
theorem get_order_appendHistory (db : DB) (h : OrderStatusHistory) (oid : Int) :
    get_order_by_id (db.appendHistory h) oid = get_order_by_id db oid := rfl

/-- `update_order_status`'s database effect, spelled out, when the order is
found. -/
theorem update_db_eq (db : DB) (oid staff : Int) (st : OrderStatus) (o : Order)
    (hfind : get_order_by_id db oid = .ok o) :
    update_order_status_db db oid st staff =
      .ok ((db.updateOrderRow oid (fun x => { x with status := st })).appendHistory
             { order_id := o.id, status := st, changed_by_user_id := staff },
           { o with status := st }) := by
  simp only [update_order_status_db, hfind]

/-- In a runtime context whose dispatch does not raise, `update_order_status`
returns the committed state and the refreshed order. -/
theorem update_quiet (env : RuntimeEnv) (hq : env.quiet = true) (db : DB)
    (oid staff : Int) (st : OrderStatus) (o : Order)
    (hfind : get_order_by_id db oid = .ok o) :
    update_order_status env db oid st staff =
      .ok ((db.updateOrderRow oid (fun x => { x with status := st })).appendHistory
             { order_id := o.id, status := st, changed_by_user_id := staff })
          { o with status := st } := by
  simp only [update_order_status, update_db_eq db oid staff st o hfind]
  cases hd : dispatch_broadcast env with
  | ok d => rfl
  | error u =>
    rw [RuntimeEnv.quiet, hd] at hq
    simp [Except.isOk, Except.toBool] at hq

/-- The compensating cancellation, in a quiet runtime context and with the
order row present: it raises the non-retryable `PayPalAPIError`, and the
stored row ends `CANCELED` with the failure label persisted as the payment
status. -/
theorem cancel_result (env : RuntimeEnv) (hq : env.quiet = true) (db : DB)
    (order o0 : Order) (label msg : String)
    (hfind : get_order_by_id db order.id = .ok o0) :
    (cancel_order_due_to_payment env db order label msg).2 = .payPalAPIError msg false ∧
    ∃ o', get_order_by_id (cancel_order_due_to_payment env db order label msg).1 order.id
        = .ok o' ∧
      o'.status = .CANCELED ∧ o'.payment_status = some label ∧
      o'.payment_provider = some "PAYPAL" := by
  have h1 : get_order_by_id (db.updateOrderRow order.id (fun x =>
      { x with payment_provider := some "PAYPAL", payment_status := some label }))
      order.id = .ok { o0 with payment_provider := some "PAYPAL", payment_status := some label } := by
    rw [get_order_updateOrderRow db order.id
      (fun x => { x with payment_provider := some "PAYPAL", payment_status := some label })
      (fun o => rfl), hfind]
    rfl
  have h2 := update_quiet env hq _ order.id order.user_id .CANCELED _ h1
  simp only [cancel_order_due_to_payment, h2]
  refine ⟨by trivial, ?_⟩
  refine ⟨{ o0 with payment_provider := some "PAYPAL", payment_status := some label, status := .CANCELED }, ?_, rfl, rfl, rfl⟩
  rw [get_order_appendHistory, get_order_updateOrderRow _ order.id
    (fun x => { x with status := OrderStatus.CANCELED }) (fun o => rfl), h1]
  rfl

/-- Counterexample to claim C1: a capture response whose status is exactly
the lowercase string `"completed"`, whose echoed custom id equals the order
id, and whose captured amount exactly equals `order.total_amount`, does NOT
drive the order to `ACCEPTED`: the code compares against the uppercase
`"COMPLETED"`, so it persists the failure status and drives the order to
`CANCELED`, raising the non-retryable error. -/
theorem lowercase_completed_not_accepted_cx :
    lowercaseCompletedEnv.body = some
      { status := some "completed",
        purchase_units := some
          [{ custom_id := some "1",
             captures := some [{ id := some "TX1", amount_value := some 1125 }] }] } ∧
    pendingOrder.id = 1 ∧ pendingOrder.total_amount = 1125 ∧
    capture_paypal_order quietEnv lowercaseCompletedEnv dbPending 1 "PP-1" 7 =
      ({ menu_items := [], cart_items := [],
         orders := [{ pendingOrder with
                        status := .CANCELED,
                        payment_provider := some "PAYPAL",
                        payment_status := some "completed" }],
         order_items := [],
         status_history := dbPending.status_history ++
           [{ order_id := 1, status := .CANCELED, changed_by_user_id := 7 }] },
       .error (.payPalAPIError "PayPal capture not completed" false)) := by decide

/-- Claim C1 (amended): for a capture call on an owned order with a
consistent session id, a successful token fetch, a 200/201 capture response
with a JSON body, and a broadcast dispatch that does not itself raise:
the adapter persists the transaction id and drives the order to `ACCEPTED`
exactly when the body's status is the uppercase `"COMPLETED"`, the payload
parses (purchase unit, captures, transaction id, amount — with the echoed
custom id, when present and non-empty, equal to the internal order id), and
the captured amount exactly equals `order.total_amount`; on any such
verification failure it instead persists a failure payment status onto the
order, drives it to `CANCELED`, and raises a non-retryable `PayPalAPIError`. -/
theorem capture_verification (benv : RuntimeEnv) (cenv : CaptureEnv) (db : DB)
    (oid : Int) (pid : String) (uid : Int) (order : Order) (data : CaptureData)
    (hq : benv.quiet = true)
    (hget : get_order_by_id db oid = .ok order)
    (howner : order.user_id = uid)
    (hpid : order.paypal_order_id = none ∨ order.paypal_order_id = some pid)
    (htoken : cenv.token_status = 200)
    (hhttp : cenv.http_status = 200 ∨ cenv.http_status = 201)
    (hbody : cenv.body = some data) :
    (∀ tid amt,
      data.status.getD "" = "COMPLETED" →
      parse_capture_payload data order.id = .parsed tid amt →
      amt = order.total_amount →
      (capture_paypal_order benv cenv db oid pid uid).2 = .ok ("COMPLETED", tid) ∧
      ∃ o', get_order_by_id (capture_paypal_order benv cenv db oid pid uid).1 oid = .ok o' ∧
        o'.status = .ACCEPTED ∧ o'.paypal_capture_id = some tid ∧
        o'.payment_status = some "COMPLETED") ∧
    (¬(data.status.getD "" = "COMPLETED" ∧
        ∃ tid amt, parse_capture_payload data order.id = .parsed tid amt ∧
          amt = order.total_amount) →
      ∃ msg, (capture_paypal_order benv cenv db oid pid uid).2 =
          .error (.payPalAPIError msg false) ∧
        ∃ o' label,
          get_order_by_id (capture_paypal_order benv cenv db oid pid uid).1 oid = .ok o' ∧
          o'.status = .CANCELED ∧ o'.payment_status = some label ∧
          label ≠ "COMPLETED") := by
  have hoid := get_order_by_id_ok_id db oid order hget
  subst hoid
  have hc1 : (!(order.user_id == uid)) = false := by simp [howner]
  have hc2 : (match order.paypal_order_id with
      | some pid' => !(pid' == pid)
      | none => false) = false := by
    rcases hpid with h | h <;> simp [h]
  have hc3 : (!(cenv.token_status == 200)) = false := by simp [htoken]
  have hc4 : ¬(cenv.http_status ≥ 500) := by rcases hhttp with h | h <;> omega
  have hc5 : (!(cenv.http_status == 200 || cenv.http_status == 201)) = false := by
    rcases hhttp with h | h <;> simp [h]
  constructor
  · intro tid amt hs hp ha
    have hsb : (data.status.getD "" == "COMPLETED") = true := by simp [hs]
    have hab : (amt == order.total_amount) = true := by simp [ha]
    have h1 : get_order_by_id (db.updateOrderRow order.id (fun x =>
        { x with payment_provider := some "PAYPAL",
                 payment_status := some (data.status.getD ""),
                 paypal_order_id := some pid,
                 paypal_capture_id := some tid })) order.id =
        .ok { order with
                payment_provider := some "PAYPAL",
                payment_status := some (data.status.getD ""),
                paypal_order_id := some pid,
                paypal_capture_id := some tid } := by
      rw [get_order_updateOrderRow db order.id
        (fun x =>
          { x with
            payment_provider := some "PAYPAL",
            payment_status := some (data.status.getD ""),
            paypal_order_id := some pid,
            paypal_capture_id := some tid })
        (fun o => rfl), hget]
      rfl
    have hupd := update_quiet benv hq _ order.id order.user_id .ACCEPTED _ h1
    simp only [capture_paypal_order, hget, hc1, hc2, hc3, hc4, hc5, hbody, hsb, hp, hab,
      hupd, Bool.false_eq_true, Bool.not_true, Bool.not_false, eq_self_iff_true, if_false, if_true]
    constructor
    · simp [hs]
    · refine ⟨{ order with
          payment_provider := some "PAYPAL",
          payment_status := some (data.status.getD ""),
          paypal_order_id := some pid,
          paypal_capture_id := some tid,
          status := .ACCEPTED }, ?_, rfl, rfl, by simp [hs]⟩
      rw [get_order_appendHistory, get_order_updateOrderRow _ order.id
        (fun x => { x with status := OrderStatus.ACCEPTED }) (fun o => rfl), h1]
      rfl
  · intro hnv
    by_cases hs : data.status.getD "" = "COMPLETED"
    · cases hp : parse_capture_payload data order.id with
      | parsed tid amt =>
        have hne : amt ≠ order.total_amount := by
          intro hcon
          exact hnv ⟨hs, tid, amt, hp, hcon⟩
        have hsb : (data.status.getD "" == "COMPLETED") = true := by simp [hs]
        have hab : (amt == order.total_amount) = false := by simp [hne]
        obtain ⟨herr, o', hfound, hst, hpay, hprov⟩ :=
          cancel_result benv hq db order order "AMOUNT_MISMATCH" "Captured amount mismatch" hget
        refine ⟨"Captured amount mismatch", ?_, o', "AMOUNT_MISMATCH", ?_, hst, hpay, by decide⟩
        · simp only [capture_paypal_order, hget, hc1, hc2, hc3, hc4, hc5, hbody, hsb, hp, hab,
            Bool.false_eq_true, Bool.not_true, Bool.not_false, eq_self_iff_true, if_false, if_true]
          rw [herr]
        · simp only [capture_paypal_order, hget, hc1, hc2, hc3, hc4, hc5, hbody, hsb, hp, hab,
            Bool.false_eq_true, Bool.not_true, Bool.not_false, eq_self_iff_true, if_false, if_true]
          exact hfound
      | parseError =>
        have hsb : (data.status.getD "" == "COMPLETED") = true := by simp [hs]
        obtain ⟨herr, o', hfound, hst, hpay, hprov⟩ :=
          cancel_result benv hq db order order "FAILED" "Unexpected PayPal capture response" hget
        refine ⟨"Unexpected PayPal capture response", ?_, o', "FAILED", ?_, hst, hpay, by decide⟩
        · simp only [capture_paypal_order, hget, hc1, hc2, hc3, hc4, hc5, hbody, hsb, hp,
            Bool.false_eq_true, Bool.not_true, Bool.not_false, eq_self_iff_true, if_false, if_true]
          rw [herr]
        · simp only [capture_paypal_order, hget, hc1, hc2, hc3, hc4, hc5, hbody, hsb, hp,
            Bool.false_eq_true, Bool.not_true, Bool.not_false, eq_self_iff_true, if_false, if_true]
          exact hfound
      | customIdMismatch =>
        have hsb : (data.status.getD "" == "COMPLETED") = true := by simp [hs]
        obtain ⟨herr1, o1, hfound1, hst1, hpay1, hprov1⟩ :=
          cancel_result benv hq db order order "FAILED" "Custom ID mismatch" hget
        obtain ⟨herr2, o2, hfound2, hst2, hpay2, hprov2⟩ :=
          cancel_result benv hq (cancel_order_due_to_payment benv db order "FAILED"
            "Custom ID mismatch").1 order o1 "FAILED" "Unexpected PayPal capture response" hfound1
        refine ⟨"Unexpected PayPal capture response", ?_, o2, "FAILED", ?_, hst2, hpay2, by decide⟩
        · simp only [capture_paypal_order, hget, hc1, hc2, hc3, hc4, hc5, hbody, hsb, hp,
            Bool.false_eq_true, Bool.not_true, Bool.not_false, eq_self_iff_true, if_false, if_true]
          rw [herr2]
        · simp only [capture_paypal_order, hget, hc1, hc2, hc3, hc4, hc5, hbody, hsb, hp,
            Bool.false_eq_true, Bool.not_true, Bool.not_false, eq_self_iff_true, if_false, if_true]
          exact hfound2
    · have hsb : (data.status.getD "" == "COMPLETED") = false := by simp [hs]
      obtain ⟨herr, o', hfound, hst, hpay, hprov⟩ :=
        cancel_result benv hq db order order
          (if (data.status.getD "" == "") = true then "FAILED" else data.status.getD "")
          "PayPal capture not completed" hget
      have hlab : (if (data.status.getD "" == "") = true then "FAILED" else data.status.getD "")
          ≠ "COMPLETED" := by
        by_cases hnil : (data.status.getD "" == "") = true
        · rw [if_pos hnil]; decide
        · rw [if_neg hnil]; exact hs
      refine ⟨"PayPal capture not completed", ?_,
        o', (if (data.status.getD "" == "") = true then "FAILED" else data.status.getD ""),
        ?_, hst, hpay, hlab⟩
      · simp only [capture_paypal_order, hget, hc1, hc2, hc3, hc4, hc5, hbody, hsb,
          Bool.false_eq_true, Bool.not_true, Bool.not_false, eq_self_iff_true, if_false, if_true]
        rw [herr]
      · simp only [capture_paypal_order, hget, hc1, hc2, hc3, hc4, hc5, hbody, hsb,
          Bool.false_eq_true, Bool.not_true, Bool.not_false, eq_self_iff_true, if_false, if_true]
        exact hfound

/-- Witness for the amended C1: the uppercase-`"COMPLETED"` response with
matching custom id and exact amount drives the pending 11.25 order to
`ACCEPTED` and persists the transaction id. -/
theorem capture_verification_witness :
    (capture_paypal_order quietEnv uppercaseCompletedEnv dbPending 1 "PP-1" 7).2 =
      .ok ("COMPLETED", "TX1") ∧
    ∃ o', get_order_by_id
        (capture_paypal_order quietEnv uppercaseCompletedEnv dbPending 1 "PP-1" 7).1 1 = .ok o' ∧
      o'.status = .ACCEPTED ∧ o'.paypal_capture_id = some "TX1" ∧
      o'.payment_status = some "COMPLETED" :=
  (capture_verification quietEnv uppercaseCompletedEnv dbPending 1 "PP-1" 7 pendingOrder
      { status := some "COMPLETED",
        purchase_units := some
          [{ custom_id := some "1",
             captures := some [{ id := some "TX1", amount_value := some 1125 }] }] }
      (by decide) (by decide) (by decide) (Or.inl (by decide)) (by decide)
      (Or.inr (by decide)) (by decide)).1
    "TX1" 1125 (by decide) (by decide) (by decide)

end Barista
